import Mathlib

set_option linter.unusedVariables false

/-!
Shallow embedding of `src/game_objects.rs` from the `epar` repository
(obstacle-choreography core of a bullet-hell game), together with theorems
settling the frozen specification claims.

Conventions of the embedding:
* Rust `f32` values are modelled as elements of a `LinearOrderedField`
  (instantiated with `ℚ` for executable statements, and with `ℝ` where the
  claim speaks about exact angles in radians).
* 2D vectors (`macroquad::Vec2`) are modelled as pairs `K × K`, with the
  componentwise operations written out explicitly.
* External collaborators (the collision-test library in `crate::utils`, the
  screen-metrics functions, coherent noise, trigonometry) are either passed
  as explicit function parameters or modelled from the spec as noted on each
  definition.
* Fallible-free: every translated function is total, as in the source.
-/

namespace Epar

section Defs

variable (K : Type) [LinearOrderedField K]

/-- The player capsule (`Player` struct): position, collision radius, speed,
dash charge and invulnerability seconds.  Read-only to the core. -/
structure Player where
  pos : K × K
  rad : K
  pps : K
  dash : K
  isecs : K

/-- Straight-line pellet (`Pellet` struct): position, velocity, radius. -/
structure Pellet where
  pos : K × K
  vel : K × K
  rad : K

variable {K}

/-- `Pellet::new`. -/
def Pellet.new (pos vel : K × K) (rad : K) : Pellet K :=
  { pos := pos, vel := vel, rad := rad }

/-- Modelled from the spec: the external circle–circle collision predicate
`circle_vs_circle(c1,r1,c2,r2) -> bool` (`utils::collide_cc`, repository code
that is not under `src/`).  Two circles overlap when the distance between the
centers is less than the sum of the radii; we state this on squares to stay
inside the field. -/
def collide_cc (c1 : K × K) (r1 : K) (c2 : K × K) (r2 : K) : Bool :=
  decide ((c1.1 - c2.1) ^ 2 + (c1.2 - c2.2) ^ 2 < (r1 + r2) ^ 2)

/-- `Pellet::collides`: circle–circle test against the player. -/
def Pellet.collides (p : Pellet K) (player : Player K) : Bool :=
  collide_cc p.pos p.rad player.pos player.rad

variable (K) in
/-- An axis-aligned rectangle given as `x, y, w, h`, as in `macroquad::Rect`. -/
structure Rect where
  x : K
  y : K
  w : K
  h : K

/-- Modelled external collaborator: `macroquad::Rect::contains`, which treats
the rectangle as closed on the left/top edges and open on the right/bottom
edges (`p.x >= x && p.x < x + w && p.y >= y && p.y < y + h`). -/
def Rect.containsPoint (r : Rect K) (p : K × K) : Bool :=
  decide (r.x ≤ p.1) && decide (p.1 < r.x + r.w) &&
  decide (r.y ≤ p.2) && decide (p.2 < r.y + r.h)

/-- `Pellet::should_kill`: the pellet dies when its position leaves
`Rect::new(-rad, -rad, screen_width() + rad, screen_height() + rad)`.
The external screen metrics `screen_width()`/`screen_height()` are passed in
as the parameters `sw`/`sh`. -/
def Pellet.shouldKill (sw sh : K) (p : Pellet K) : Bool :=
  !(Rect.containsPoint ⟨-p.rad, -p.rad, sw + p.rad, sh + p.rad⟩ p.pos)

variable (K) in
/-- Laser that grows in and shrinks out (`GrowLaser` struct). -/
structure GrowLaser where
  start : K × K
  endp : K × K
  thickness : K
  warning_time : K
  show_time : K
  current_time : K
  grow_time : K
  shown : Bool
  jerk : K × K
  fade_in : K
  fade_opacity : K

/-- `GrowLaser::new`: stores the caller-supplied values verbatim and fills in
the defaults `current_time = 0`, `shown = false`, `grow_time = 0.25`,
`fade_opacity = 0.5`, `fade_in = warning_time`. -/
def GrowLaser.new (start endp : K × K) (thickness warning_time show_time : K)
    (jerk : K × K) : GrowLaser K :=
  { start := start
    endp := endp
    thickness := thickness
    warning_time := warning_time
    show_time := show_time
    jerk := jerk
    current_time := 0
    shown := false
    grow_time := 1 / 4
    fade_opacity := 1 / 2
    fade_in := warning_time }

/-- `GrowLaser::thick`: the smoothed thickness envelope. -/
def GrowLaser.thick (s : GrowLaser K) : K :=
  let total_time := s.warning_time + s.show_time
  if s.warning_time ≤ s.current_time ∧ s.current_time ≤ s.warning_time + s.grow_time then
    s.thickness * (s.current_time - s.warning_time) / s.grow_time
  else if total_time - s.grow_time < s.current_time then
    s.thickness * (s.current_time - total_time) / (-s.grow_time) + 1
  else
    s.thickness

/-- `GrowLaser::should_kill`. -/
def GrowLaser.shouldKill (s : GrowLaser K) : Bool :=
  decide (s.warning_time + s.show_time ≤ s.current_time)

variable (K) in
/-- Laser whose visible endpoint slams out and retracts (`SlamLaser` struct). -/
structure SlamLaser where
  start : K × K
  endp : K × K
  thickness : K
  warning_time : K
  show_time : K
  current_time : K
  leave_time : K
  anticipation : K
  shown : Bool
  jerk : K × K
  shake : K

/-- `SlamLaser::new`: stores the caller-supplied values verbatim and fills in
the defaults `current_time = 0`, `shown = false`, `leave_time = 2`. -/
def SlamLaser.new (start endp : K × K) (thickness warning_time show_time anticipation : K)
    (jerk : K × K) (shake : K) : SlamLaser K :=
  { start := start
    endp := endp
    thickness := thickness
    warning_time := warning_time
    show_time := show_time
    jerk := jerk
    shake := shake
    current_time := 0
    shown := false
    anticipation := anticipation
    leave_time := 2 }

/-- `utils::sq`: squaring helper used by `SlamLaser::slam`. -/
def sq (x : K) : K := x * x

/-- `SlamLaser::slam`: lerp factor of the visible endpoint. -/
def SlamLaser.slam (s : SlamLaser K) : K :=
  let total := s.warning_time + s.show_time
  if s.current_time < s.warning_time then
    s.current_time / s.warning_time * s.anticipation
  else if total - s.leave_time < s.current_time then
    let exit_point := total - s.leave_time
    (-(sq ((s.current_time - exit_point) / s.leave_time))) + 1
  else
    1

/-- `SlamLaser::should_kill`. -/
def SlamLaser.shouldKill (s : SlamLaser K) : Bool :=
  decide (s.warning_time + s.show_time ≤ s.current_time)

variable (K) in
/-- Rectangle with a fixed rotation (`RotatableRect` struct). -/
structure RotatableRect where
  center : K × K
  size : K × K
  rot : K
  warning_time : K
  show_time : K
  current_time : K
  grow_time : K

/-- `RotatableRect::size`: the animated size envelope; `allow_oversize`
selects whether the grow-in branch may overshoot `self.size`. -/
def RotatableRect.sizeAt (s : RotatableRect K) (allow_oversize : Bool) : K × K :=
  let total_time := s.warning_time + s.show_time
  if allow_oversize = true ∧ s.warning_time ≤ s.current_time ∧
      s.current_time ≤ s.warning_time + s.grow_time then
    ( s.size.1 * ((s.current_time - s.warning_time) / (-s.grow_time) + 2)
    , s.size.2 * ((s.current_time - s.warning_time) / (-s.grow_time) + 2) )
  else if total_time - s.grow_time ≤ s.current_time then
    ( s.size.1 * ((s.current_time - total_time - s.grow_time) / (-s.grow_time) - 1)
    , s.size.2 * ((s.current_time - total_time - s.grow_time) / (-s.grow_time) - 1) )
  else
    s.size

/-- `RotatableRect::should_kill`. -/
def RotatableRect.shouldKill (s : RotatableRect K) : Bool :=
  decide (s.show_time + s.warning_time ≤ s.current_time)

variable (K) in
/-- Continuously rotating rectangle (`RotatingRect` struct). -/
structure RotatingRect where
  center : K × K
  size : K × K
  rot : K
  warning_time : K
  show_time : K
  current_time : K
  ease_time : K
  grow_time : K
  rpb : K

/-- `RotatingRect::get_size`: the shrink-out envelope (no grow-in overshoot). -/
def RotatingRect.getSize (s : RotatingRect K) : K × K :=
  let total_time := s.warning_time + s.show_time
  if total_time - s.grow_time ≤ s.current_time then
    ( s.size.1 * ((s.current_time - total_time - s.grow_time) / (-s.grow_time) - 1)
    , s.size.2 * ((s.current_time - total_time - s.grow_time) / (-s.grow_time) - 1) )
  else
    s.size

/-- `RotatingRect::get_rot`: rotation driven by the animation clock.  The
constant `TAU` is passed in as the parameter `tau`. -/
def RotatingRect.getRot (tau : K) (s : RotatingRect K) : K :=
  s.rot + (s.ease_time - s.warning_time) * s.rpb * tau

/-- `RotatingRect::should_kill`. -/
def RotatingRect.shouldKill (s : RotatingRect K) : Bool :=
  decide (s.show_time + s.warning_time ≤ s.current_time)

variable (K) in
/-- Rotating annular wedge (`SpinningArc` struct). -/
structure SpinningArc where
  center : K × K
  inner_rad : K
  outer_rad : K
  left_angle : K
  right_angle : K
  rpb : K
  warning_time : K
  show_time : K
  ease : K
  time : K

/-- `SpinningArc::rot`: rotation driven by the animation clock. -/
def SpinningArc.rot (tau : K) (s : SpinningArc K) : K :=
  s.ease * s.rpb * tau

/-- `SpinningArc::should_kill`. -/
def SpinningArc.shouldKill (s : SpinningArc K) : Bool :=
  decide (s.warning_time + s.show_time ≤ s.time)

/-- `MOORE_OFFSETS`: the eight Moore-neighborhood offsets, in source order. -/
def MOORE_OFFSETS : List (Int × Int) :=
  [(-1, -1), (0, -1), (1, -1), (-1, 0), (1, 0), (-1, 1), (0, 1), (1, 1)]

variable (K) in
/-- Conway-style cellular automaton grid (`GOLGrid` struct).  The boolean grid
is stored row-major as in the source `Vec<bool>`; the two rulesets are 9-entry
lookup tables indexed by live-neighbor count. -/
structure GOLGrid where
  width : Nat
  height : Nat
  gol : List Bool
  moore_begin : List Bool
  moore_stay : List Bool
  ticks : Nat
  max : Nat
  period : K
  time : K
  warning_time : K
  first_warning_time : K

/-- `GOLGrid::get`: returns `false` for negative coordinates, otherwise looks
up the row-major index `y * width + x`, with `Vec::get(..).unwrap_or(&false)`
modelled by `List.getD .. false`. -/
def GOLGrid.get (g : GOLGrid K) (x y : Int) : Bool :=
  if x < 0 ∨ y < 0 then false
  else g.gol.getD (y.toNat * g.width + x.toNat) false

/-- `GOLGrid::neighbors`: counts the live cells at the eight Moore offsets. -/
def GOLGrid.neighbors (g : GOLGrid K) (x y : Nat) : Nat :=
  MOORE_OFFSETS.countP (fun o => g.get ((x : Int) + o.1) ((y : Int) + o.2))

/-- `GOLGrid::get_next`: next state of one cell, looked up in the stay/begin
ruleset by live-neighbor count. -/
def GOLGrid.get_next (g : GOLGrid K) (x y : Nat) : Bool :=
  if g.get (x : Int) (y : Int) then g.moore_stay.getD (g.neighbors x y) false
  else g.moore_begin.getD (g.neighbors x y) false

/-- `GOLGrid::should_kill`. -/
def GOLGrid.shouldKill (g : GOLGrid K) : Bool :=
  decide (g.max ≤ g.ticks)

variable (K) in
/-- Helper owned by `CenterProj` (`PelletSpinner` struct); not itself an
obstacle. -/
structure PelletSpinner where
  count : Nat
  max : Nat
  phase : K
  period : K
  start_time : K
  rad : K
  speed : K

variable (K) in
/-- Boss-event payloads (`CenterEvent` enum). -/
inductive CenterEvent where
  | Pulse : CenterEvent
  | SPulse (strength : K) : CenterEvent
  | Lasers (count : Nat) (phase : K) : CenterEvent
  | Pellets (count : Nat) (speed rad phase : K) (is_strong : Bool) : CenterEvent
  | MessyPellets (count : Nat) (rad min_speed max_speed : K) : CenterEvent
  | PelletSpinner (count : Nat) (speed rad phase ppb : K) : CenterEvent
  deriving DecidableEq

variable (K) in
/-- Scheduled multi-event boss obstacle (`CenterProj` struct). -/
structure CenterProj where
  disp_amp : K
  disp_freq : K × K
  disp_phase : K × K
  time : K
  ease : K
  rad : K
  pulse : K
  warning_time : K
  show_time : K
  leave_time : K
  events : List (K × CenterEvent K)
  pellet_spinners : List (PelletSpinner K)

/-- `CenterProj::default` (also `CenterProj::new`). -/
def CenterProj.default : CenterProj K :=
  { disp_amp := 75
    disp_freq := (1, 1)
    time := 0
    ease := 0
    rad := 20
    pulse := 0
    warning_time := 1
    show_time := 32
    leave_time := 1 / 4
    events := []
    disp_phase := (0, 0)
    pellet_spinners := [] }

/-- `CenterProj::trackpos`: coherent-noise-plus-sinusoid path.  The external
collaborators are passed in: `noise` is the 2D Perlin noise function, `sinF`
and `cosF` the trigonometric functions, `center` the screen center and `tau`
the constant `TAU`. -/
def CenterProj.trackpos (noise : K → K → K) (sinF cosF : K → K) (center : K × K)
    (tau : K) (cp : CenterProj K) (time : K) : K × K :=
  ( (noise (time * cp.disp_freq.1) (time * cp.disp_freq.1) * (1 / 2)
      + sinF (time * (5 / 4) * cp.disp_freq.1 + cp.disp_phase.1 * tau)) * cp.disp_amp
      + center.1
  , (noise (-(time * cp.disp_freq.2)) (-(time * cp.disp_freq.2)) * (1 / 2)
      + cosF (time * (5 / 4) * cp.disp_freq.2 + cp.disp_phase.2 * tau)) * cp.disp_amp
      + center.2 )

/-- `CenterProj::size`: the drawn/collision radius; shrinks to zero over the
final `leave_time` window.  As in the source, the `time` argument is unused
and the stored `self.time` is read instead. -/
def CenterProj.size (cp : CenterProj K) (time : K) : K :=
  cp.rad * (cp.pulse + 1) *
    (if cp.show_time - cp.leave_time < cp.time - cp.warning_time then
      (cp.warning_time + cp.show_time - cp.time) / cp.leave_time
    else 1)

/-- `CenterProj::collides`: circle–circle test of the player against the
tracked position at the current animation time.  Note the absence of any
warning-phase gate. -/
def CenterProj.collides (noise : K → K → K) (sinF cosF : K → K) (center : K × K)
    (tau : K) (cp : CenterProj K) (player : Player K) : Bool :=
  collide_cc (cp.trackpos noise sinF cosF center tau cp.ease) (cp.size cp.time)
    player.pos player.rad

/-- `CenterProj::should_kill`: strict comparison against the total duration. -/
def CenterProj.shouldKill (cp : CenterProj K) : Bool :=
  decide (cp.warning_time + cp.show_time < cp.time)

/-- Stable insertion of an event in front of the first strictly-larger offset;
together with `CenterProj.sortEvents` this models the stable
`Vec::sort_by(|(a, _), (b, _)| a.total_cmp(b))` of `CenterProj::sort`. -/
def insertEvent (e : K × CenterEvent K) : List (K × CenterEvent K) → List (K × CenterEvent K)
  | [] => [e]
  | f :: rest => if f.1 ≤ e.1 then f :: insertEvent e rest else e :: f :: rest

/-- Stable insertion sort of the event queue by offset; models the
`self.events.sort_by(..)` call in `CenterProj::sort`. -/
def CenterProj.sortEvents : List (K × CenterEvent K) → List (K × CenterEvent K)
  | [] => []
  | e :: rest => insertEvent e (CenterProj.sortEvents rest)

/-- `CenterProj::sort`: returns the projectile with its event queue sorted by
offset. -/
def CenterProj.sort (cp : CenterProj K) : CenterProj K :=
  { cp with events := CenterProj.sortEvents cp.events }

/-- The event-consumption loop at the head of `CenterProj::update`: while the
queue is non-empty and `self.time - self.warning_time >= self.events[0].0`,
the head event is dispatched (via `employ`) and removed; the loop breaks at
the first not-yet-due event.  `employ` never touches `self.events`, so the
fired prefix is independent of the dispatch effects; this function returns
the fired events (in firing order) together with the remaining queue. -/
def CenterProj.fireEvents (timeLessWarning : K) :
    List (K × CenterEvent K) → List (K × CenterEvent K) × List (K × CenterEvent K)
  | [] => ([], [])
  | e :: rest =>
    if e.1 ≤ timeLessWarning then
      let (fired, remaining) := CenterProj.fireEvents timeLessWarning rest
      (e :: fired, remaining)
    else ([], e :: rest)

variable (K) in
/-- The polymorphic obstacle payload of an `Obst` (`Box<dyn Obstacle>` in the
source), as a closed sum of the plain-data variants that ever get pushed into
the accumulator by the code embedded here.  Variants owning spawner closures
(`Bomb`, `Periodic`, `Ease`, `CenterProj`, `GOLGrid`) are modelled as
standalone structures and are never themselves spawned by the embedded code. -/
inductive AnyObstacle where
  | pellet (p : Pellet K) : AnyObstacle
  | growLaser (s : GrowLaser K) : AnyObstacle
  | slamLaser (s : SlamLaser K) : AnyObstacle
  | rotatableRect (s : RotatableRect K) : AnyObstacle
  | rotatingRect (s : RotatingRect K) : AnyObstacle
  | spinningArc (s : SpinningArc K) : AnyObstacle

variable (K) in
/-- Wrapper holding one obstacle plus removal marker and lifecycle origin
(`Obst` struct). -/
structure Obst where
  obstacle : AnyObstacle K
  marked_for_removal : Bool
  start_time : K

/-- `Obst::new`. -/
def Obst.new (obstacle : AnyObstacle K) (start_time : K) : Obst K :=
  { obstacle := obstacle, marked_for_removal := false, start_time := start_time }

variable (K) in
/-- Modelled from the spec: `UpdateAccumulator` (`crate::game`, repository
code that is not under `src/`).  Per §3/§4.2 it holds an ordered sequence of
newly spawned `Obst`, the aggregate shake/jerk requests (kept here as ordered
lists, since requests are never silently dropped and the add-vs-max policy is
left to the consumer), and the captured lifecycle time readable via
`time()`. -/
structure UpdateAccumulator where
  spawned : List (Obst K)
  shakes : List K
  jerks : List (K × K)
  time : K

/-- Modelled from the spec: `UpdateAccumulator::obstacle`, appending one
`Obst` to the spawn sequence. -/
def UpdateAccumulator.obstacle (a : UpdateAccumulator K) (o : Obst K) :
    UpdateAccumulator K :=
  { a with spawned := a.spawned ++ [o] }

/-- Modelled from the spec: `UpdateAccumulator::obst`, enqueueing a bare
obstacle at the accumulator's captured lifecycle time. -/
def UpdateAccumulator.obst (a : UpdateAccumulator K) (o : AnyObstacle K) :
    UpdateAccumulator K :=
  a.obstacle (Obst.new o a.time)

/-- Modelled from the spec: `UpdateAccumulator::shake`, recording a camera
shake request. -/
def UpdateAccumulator.shake (a : UpdateAccumulator K) (m : K) :
    UpdateAccumulator K :=
  { a with shakes := a.shakes ++ [m] }

/-- Modelled from the spec: `UpdateAccumulator::jerk`, recording a directional
impulse request. -/
def UpdateAccumulator.jerk (a : UpdateAccumulator K) (v : K × K) :
    UpdateAccumulator K :=
  { a with jerks := a.jerks ++ [v] }

variable (K) in
/-- Modelled from the spec: `ModifyArgs` (`crate::game`, repository code that
is not under `src/`): a configuration record with a mandatory `time` and
builder-style optional position/velocity/radius/step fields. -/
structure ModifyArgs where
  time : K
  pos : K × K
  vel : K × K
  rad : K
  step : Nat

/-- Modelled from the spec: `ModifyArgs::new`, taking the mandatory time and
defaulting the optional fields. -/
def ModifyArgs.new (time : K) : ModifyArgs K :=
  { time := time, pos := (0, 0), vel := (0, 0), rad := 0, step := 0 }

/-- Modelled from the spec: the `pos` builder method of `ModifyArgs`. -/
def ModifyArgs.withPos (m : ModifyArgs K) (pos : K × K) : ModifyArgs K :=
  { m with pos := pos }

/-- Modelled from the spec: the `vel` builder method of `ModifyArgs`. -/
def ModifyArgs.withVel (m : ModifyArgs K) (vel : K × K) : ModifyArgs K :=
  { m with vel := vel }

/-- Modelled from the spec: the `rad` builder method of `ModifyArgs`. -/
def ModifyArgs.withRad (m : ModifyArgs K) (rad : K) : ModifyArgs K :=
  { m with rad := rad }

variable (K) in
/-- Bomb obstacle (`Bomb` struct).  The owned spawner (`Box<dyn Accumulatee>`)
is modelled as a function from accumulator and `ModifyArgs` to the updated
accumulator, per the spec's Accumulatee capability set. -/
structure Bomb where
  start : K × K
  target : K × K
  time : K
  life : K
  pellets : Nat
  pellet_vel : K
  pellet_rad : K
  snappiness : K
  rad : K
  spawner : UpdateAccumulator K → ModifyArgs K → UpdateAccumulator K

/-- `Bomb::new`: stores the arguments and derives `snappiness = 20/lifetime`
and `rad = 30/lifetime`. -/
def Bomb.new (start target : K × K) (lifetime : K) (pellets : Nat)
    (pellet_vel pellet_rad : K)
    (spawner : UpdateAccumulator K → ModifyArgs K → UpdateAccumulator K) : Bomb K :=
  { start := start
    target := target
    time := 0
    life := lifetime
    pellets := pellets
    pellet_vel := pellet_vel
    pellet_rad := pellet_rad
    snappiness := 20 / lifetime
    rad := 30 / lifetime
    spawner := spawner }

/-- `Bomb::pellet_spawner`: the standard spawner pushing one `Pellet` built
from the `ModifyArgs` at the args' time. -/
def Bomb.pellet_spawner (gs : UpdateAccumulator K) (args : ModifyArgs K) :
    UpdateAccumulator K :=
  gs.obstacle (Obst.new (.pellet { pos := args.pos, vel := args.vel, rad := args.rad })
    args.time)

/-- `Bomb::pos`: exponential-decay interpolation from `start` toward `target`,
written componentwise. -/
def Bomb.pos (b : Bomb K) (offset : K × K) : K × K :=
  ( (b.start.1 - b.target.1) / (b.time * b.snappiness + 1) + b.target.1 + offset.1
  , (b.start.2 - b.target.2) / (b.time * b.snappiness + 1) + b.target.2 + offset.2 )

/-- `Bomb::should_kill`. -/
def Bomb.shouldKill (b : Bomb K) : Bool :=
  decide (b.life ≤ b.time)

/-- `Bomb::kill`: detonates into `pellets` pellets through the owned spawner,
the `i`-th at angle `i / pellets * TAU` with velocity
`(sin θ, cos θ) * pellet_vel` and radius `pellet_rad`, all launched from the
current interpolated position and timestamped with the accumulator's captured
time.  `sinF`, `cosF` and `tau` are the external trigonometric collaborators. -/
def Bomb.kill (sinF cosF : K → K) (tau : K) (b : Bomb K)
    (to_add : UpdateAccumulator K) : UpdateAccumulator K :=
  let pos := b.pos (0, 0)
  (List.range b.pellets).foldl (fun acc (i : ℕ) =>
    let period := (i : K) / (b.pellets : K) * tau
    b.spawner acc ((((ModifyArgs.new acc.time).withPos pos).withVel
      (sinF period * b.pellet_vel, cosF period * b.pellet_vel)).withRad b.pellet_rad))
    to_add

/-- `Pellet::update`: straight-line motion `pos += vel * dease`; the
accumulator and the clock arguments other than `dease` are unused, as in the
source. -/
def Pellet.update (p : Pellet K) (to_add : UpdateAccumulator K)
    (beat_delta time dease ease : K) : Pellet K × UpdateAccumulator K :=
  ({ p with pos := (p.pos.1 + p.vel.1 * dease, p.pos.2 + p.vel.2 * dease) }, to_add)

/-- `Bomb::update`: records the lifecycle time only. -/
def Bomb.update (b : Bomb K) (to_add : UpdateAccumulator K)
    (beat_delta time dease ease : K) : Bomb K × UpdateAccumulator K :=
  ({ b with time := time }, to_add)

/-- `GrowLaser::update`: records the lifecycle time and fires the one-shot
jerk at the warning-to-armed transition. -/
def GrowLaser.update (s : GrowLaser K) (accum : UpdateAccumulator K)
    (beat_delta time dease ease : K) : GrowLaser K × UpdateAccumulator K :=
  let s1 := { s with current_time := time }
  if s1.shown = false ∧ s1.warning_time ≤ s1.current_time then
    ({ s1 with shown := true }, accum.jerk s1.jerk)
  else (s1, accum)

/-- `SlamLaser::update`: records the lifecycle time and fires the one-shot
jerk and shake at the warning-to-armed transition. -/
def SlamLaser.update (s : SlamLaser K) (accum : UpdateAccumulator K)
    (beat_delta time dease ease : K) : SlamLaser K × UpdateAccumulator K :=
  let s1 := { s with current_time := time }
  if s1.shown = false ∧ s1.warning_time ≤ s1.current_time then
    ({ s1 with shown := true }, (accum.jerk s1.jerk).shake s1.shake)
  else (s1, accum)

/-- `RotatableRect::update`: records the lifecycle time only. -/
def RotatableRect.update (s : RotatableRect K) (game_state : UpdateAccumulator K)
    (beat_delta time dease ease : K) : RotatableRect K × UpdateAccumulator K :=
  ({ s with current_time := time }, game_state)

/-- `RotatingRect::update`: records the lifecycle time and the animation
time. -/
def RotatingRect.update (s : RotatingRect K) (game_state : UpdateAccumulator K)
    (beat_delta time dease ease : K) : RotatingRect K × UpdateAccumulator K :=
  ({ s with current_time := time, ease_time := ease }, game_state)

/-- `SpinningArc::update`: records the lifecycle time and the animation
time. -/
def SpinningArc.update (s : SpinningArc K) (to_add : UpdateAccumulator K)
    (beat_delta relative_time dease ease : K) : SpinningArc K × UpdateAccumulator K :=
  ({ s with time := relative_time, ease := ease }, to_add)

/-- Modelled external collaborator: `glam::Vec2::lerp`,
`a + (b - a) * t` componentwise. -/
def lerp (a b : K × K) (t : K) : K × K :=
  (a.1 + (b.1 - a.1) * t, a.2 + (b.2 - a.2) * t)

/-- `GrowLaser::collides`: gated on the warning time, then a circle versus
rotated-rectangle test of the segment at the current smoothed thickness.  The
external collaborators `utils::rectify_line` (`rectify`) and
`utils::collide_cr` (`collideCR`) are passed as parameters. -/
def GrowLaser.collides (rectify : K × K → K × K → K → (K × K) × (K × K) × K)
    (collideCR : K × K → K × K → K → K × K → K → Bool)
    (s : GrowLaser K) (player : Player K) : Bool :=
  decide (s.warning_time ≤ s.current_time) &&
    (let r := rectify s.start s.endp s.thick
     collideCR r.1 r.2.1 r.2.2 player.pos player.rad)

/-- `SlamLaser::collides`: gated on the warning time, then a circle versus
rotated-rectangle test of the segment up to the slam-lerped endpoint. -/
def SlamLaser.collides (rectify : K × K → K × K → K → (K × K) × (K × K) × K)
    (collideCR : K × K → K × K → K → K × K → K → Bool)
    (s : SlamLaser K) (player : Player K) : Bool :=
  decide (s.warning_time ≤ s.current_time) &&
    (let r := rectify s.start (lerp s.start s.endp s.slam) s.thickness
     collideCR r.1 r.2.1 r.2.2 player.pos player.rad)

/-- `RotatableRect::collides`: gated on the warning time, then a circle versus
rotated-rectangle test at the animated (non-oversized) size. -/
def RotatableRect.collides (collideCR : K × K → K × K → K → K × K → K → Bool)
    (s : RotatableRect K) (player : Player K) : Bool :=
  decide (s.warning_time ≤ s.current_time) &&
    collideCR s.center (s.sizeAt false) s.rot player.pos player.rad

/-- `RotatingRect::collides`: gated on the warning time, then a circle versus
rotated-rectangle test at the negated current rotation. -/
def RotatingRect.collides (collideCR : K × K → K × K → K → K × K → K → Bool)
    (tau : K) (s : RotatingRect K) (player : Player K) : Bool :=
  decide (s.warning_time ≤ s.current_time) &&
    collideCR s.center s.getSize (-(s.getRot tau)) player.pos player.rad

/-- `SpinningArc::collides`: a circle versus arc-band test (external
collaborator `utils::collide_circ_arc`, passed as `collideArc`) conjoined
with the warning-time gate, in source order. -/
def SpinningArc.collides (collideArc : K × K → K → K × K → K → K → K → K → Bool)
    (tau : K) (s : SpinningArc K) (player : Player K) : Bool :=
  collideArc player.pos player.rad s.center s.outer_rad s.inner_rad
      (-(s.rot tau)) (s.right_angle - s.rot tau - s.left_angle) &&
    decide (s.warning_time ≤ s.time)

variable (K) in
/-- An RGBA color, as passed to every `draw` implementation. -/
structure Color where
  r : K
  g : K
  b : K
  a : K

variable (K) in
/-- The `Obstacle` trait as a capability record over a state type `σ`: the
per-tick contract `update(to_add, dtime, time, dease, ease)`, the pure
`draw`/`collides`/`should_kill` observations (with `δ` the abstract output
type of the external rendering collaborator) and the on-death `kill` hook. -/
structure Obs (σ δ : Type) where
  update : σ → UpdateAccumulator K → K → K → K → K → σ × UpdateAccumulator K
  draw : σ → Color K → K × K → δ
  collides : σ → Player K → Bool
  shouldKill : σ → Bool
  kill : σ → UpdateAccumulator K → σ × UpdateAccumulator K

variable (K) in
/-- Easing decorator state (`Ease` struct): the owned easing function, the
owned inner obstacle state and the previously evaluated ease value. -/
structure Ease (σ : Type) where
  ease : K → K
  proj : σ
  prev : K

/-- `Ease::anon`: wraps an obstacle with an arbitrary easing function,
starting with `prev = 0`. -/
def Ease.anon {σ : Type} (proj : σ) (f : K → K) : Ease K σ :=
  { ease := f, proj := proj, prev := 0 }

/-- `Ease::update`: evaluates the easing function at the incoming `ease`
value, forwards `(dtime, time)` unchanged and substitutes the evaluated value
and its delta against the previous evaluation as the inner `(dease, ease)`. -/
def Ease.update {σ δ : Type} (O : Obs K σ δ) (s : Ease K σ)
    (to_add : UpdateAccumulator K) (beat_delta relative_time dease ease : K) :
    Ease K σ × UpdateAccumulator K :=
  let time := s.ease ease
  let de := time - s.prev
  let r := O.update s.proj to_add beat_delta relative_time de time
  ({ s with proj := r.1, prev := time }, r.2)

/-- The `Obstacle` implementation of `Ease`: `update` reparametrizes the
animation clock, everything else delegates to the inner obstacle unchanged. -/
def Ease.obs {σ δ : Type} (O : Obs K σ δ) : Obs K (Ease K σ) δ :=
  { update := Ease.update O
    draw := fun s color offset => O.draw s.proj color offset
    collides := fun s player => O.collides s.proj player
    shouldKill := fun s => O.shouldKill s.proj
    kill := fun s to_add =>
      let r := O.kill s.proj to_add
      ({ s with proj := r.1 }, r.2) }

/-- Runs an update function over a list of per-tick
`(dtime, time, dease, ease)` quadruples, threading state and accumulator, as
the owning game loop does tick by tick. -/
def runUpd {σ : Type}
    (upd : σ → UpdateAccumulator K → K → K → K → K → σ × UpdateAccumulator K)
    (s : σ) (acc : UpdateAccumulator K) :
    List (K × K × K × K) → σ × UpdateAccumulator K
  | [] => (s, acc)
  | q :: rest =>
    let r := upd s acc q.1 q.2.1 q.2.2.1 q.2.2.2
    runUpd upd r.1 r.2 rest

/-- Runs an `Obs` over a tick list via its `update`. -/
def runObs {σ δ : Type} (O : Obs K σ δ) (s : σ) (acc : UpdateAccumulator K)
    (ticks : List (K × K × K × K)) : σ × UpdateAccumulator K :=
  runUpd O.update s acc ticks

/-- The tick sequence an undecorated obstacle receives from the game loop for
the lifecycle-delta list `ds`, starting from accumulated time `t0`: each tick
carries `(dtime, time, dease, ease)` with `time` the running sum of the deltas
and `dease = dtime`, `ease = time`. -/
def mkTicks (t0 : K) : List K → List (K × K × K × K)
  | [] => []
  | d :: ds => (d, t0 + d, d, t0 + d) :: mkTicks (t0 + d) ds

/-- The lifecycle part `(dtime, time)` of a tick quadruple. -/
def timePart (q : K × K × K × K) : K × K :=
  (q.1, q.2.1)

/-- `GOLGrid::default`: 32×18 dead grid with the default birth/survival
rulesets. -/
def GOLGrid.mkDefault : GOLGrid K :=
  { width := 32
    height := 18
    gol := List.replicate (32 * 18) false
    moore_begin := [false, false, false, true, false, false, true, false, false]
    moore_stay := [false, false, true, true, false, false, false, true, false]
    ticks := 0
    max := 32
    period := 1
    time := 0
    warning_time := 0
    first_warning_time := 1 }

/-- Concrete 2×2 grid whose only live cell is `(0, 1)` (row-major index 2),
used to exercise `GOLGrid::get` at an out-of-bounds x coordinate. -/
def gridCE : GOLGrid ℚ :=
  { GOLGrid.mkDefault with width := 2, height := 2, gol := [false, false, true, false] }

end Defs

/-- C9: `Pellet::update` moves the pellet by exactly `velocity * dease`; a
pellet at `(0,0)` with velocity `(10,0)` ends at exactly `(10,0)` after one
update with `dease = 1`, and two consecutive updates with `dease = 0.5` each
produce the same final position as a single update with `dease = 1`
(additivity of straight-line integration). -/
theorem pellet_update_additivity :
    (∀ (p : Pellet ℚ) (a : UpdateAccumulator ℚ) (d t de e : ℚ),
      (p.update a d t de e).1.pos = (p.pos.1 + p.vel.1 * de, p.pos.2 + p.vel.2 * de))
    ∧ (∀ (p : Pellet ℚ) (a1 a2 : UpdateAccumulator ℚ) (d1 t1 e1 d2 t2 e2 de1 de2 : ℚ),
      ((p.update a1 d1 t1 de1 e1).1.update a2 d2 t2 de2 e2).1
        = (p.update a1 d1 t1 (de1 + de2) e1).1)
    ∧ ((Pellet.new (0, 0) (10, 0) 1 : Pellet ℚ).update ⟨[], [], [], 0⟩ 1 1 1 1).1.pos
        = (10, 0)
    ∧ (((Pellet.new (0, 0) (10, 0) 1 : Pellet ℚ).update ⟨[], [], [], 0⟩ (1/2) (1/2) (1/2)
          (1/2)).1.update ⟨[], [], [], 0⟩ (1/2) 1 (1/2) 1).1.pos
        = ((Pellet.new (0, 0) (10, 0) 1 : Pellet ℚ).update ⟨[], [], [], 0⟩ 1 1 1 1).1.pos := by
  refine ⟨fun p a d t de e => rfl, fun p a1 a2 d1 t1 e1 d2 t2 e2 de1 de2 => ?_,
    by norm_num [Pellet.new, Pellet.update, Prod.ext_iff],
    by norm_num [Pellet.new, Pellet.update, Prod.ext_iff]⟩
  simp only [Pellet.update, Pellet.mk.injEq, Prod.mk.injEq, and_true, true_and]
  exact ⟨by ring, by ring⟩

/-- C7 (amended): `Pellet::should_kill` keeps the pellet alive exactly on
`[-rad, screen_width) × [-rad, screen_height)`: the containment rectangle is
`Rect::new(-rad, -rad, screen_width() + rad, screen_height() + rad)`, whose
right and bottom edges sit at exactly `screen_width`/`screen_height` (the
radius outset applies to the left/top sides only), and `Rect::contains` is
half-open on the right/bottom. -/
theorem pellet_shouldKill_characterization :
    ∀ (sw sh : ℚ) (p : Pellet ℚ),
      Pellet.shouldKill sw sh p = false ↔
        (-p.rad ≤ p.pos.1 ∧ p.pos.1 < sw ∧ -p.rad ≤ p.pos.2 ∧ p.pos.2 < sh) := by
  intro sw sh p
  simp only [Pellet.shouldKill, Rect.containsPoint, Bool.not_eq_false', Bool.and_eq_true,
    decide_eq_true_eq]
  constructor
  · rintro ⟨⟨⟨h1, h2⟩, h3⟩, h4⟩
    exact ⟨h1, by linarith, h3, by linarith⟩
  · rintro ⟨h1, h2, h3, h4⟩
    exact ⟨⟨⟨h1, by linarith⟩, h3⟩, by linarith⟩

/-- C7 counterexample: a pellet of radius 10 at `(1285, 0)` on a 1280×720
screen lies inside the claimed expanded bound
`[-rad, screen_width + rad] × [-rad, screen_height + rad]`, yet
`should_kill` already returns `true` there. -/
theorem pellet_bound_not_outset_ce :
    Pellet.shouldKill (1280 : ℚ) 720 (Pellet.new (1285, 0) (0, 0) 10) = true
    ∧ (-(10 : ℚ) ≤ 1285 ∧ (1285 : ℚ) ≤ 1280 + 10
        ∧ -(10 : ℚ) ≤ 0 ∧ (0 : ℚ) ≤ 720 + 10) := by
  norm_num [Pellet.shouldKill, Pellet.new, Rect.containsPoint]

/-- C3 (amended): the duration-taking constructors perform no validation:
`GrowLaser::new` and `SlamLaser::new` store the caller-supplied
`warning_time`/`show_time` verbatim (with the defaults `grow_time = 0.25`,
`fade_in = warning_time`, `leave_time = 2`), so a zero duration is neither
rejected nor clamped at construction time. -/
theorem constructors_store_durations_verbatim :
    ∀ (s e j : ℚ × ℚ) (th w sh ant sk : ℚ),
      ((GrowLaser.new s e th w sh j).warning_time = w
        ∧ (GrowLaser.new s e th w sh j).show_time = sh
        ∧ (GrowLaser.new s e th w sh j).grow_time = 1 / 4
        ∧ (GrowLaser.new s e th w sh j).fade_in = w)
      ∧ ((SlamLaser.new s e th w sh ant j sk).warning_time = w
        ∧ (SlamLaser.new s e th w sh ant j sk).show_time = sh
        ∧ (SlamLaser.new s e th w sh ant j sk).leave_time = 2) := by
  intro s e j th w sh ant sk
  exact ⟨⟨rfl, rfl, rfl, rfl⟩, rfl, rfl, rfl⟩

/-- C3 counterexample: constructing a `GrowLaser` and a `SlamLaser` with
`warning_time = 0` succeeds and stores the zero duration verbatim — nothing
is rejected or clamped, contradicting the claim. -/
theorem zero_duration_accepted_ce :
    (GrowLaser.new (0, 0) (1, 1) 5 0 1 (0, 0) : GrowLaser ℚ).warning_time = 0
    ∧ (SlamLaser.new (0, 0) (1, 1) 5 0 1 (1 / 10) (0, 0) 0 : SlamLaser ℚ).warning_time = 0 :=
  ⟨rfl, rfl⟩

/-- C2 (amended): `GOLGrid::get` is total and returns the dead default
`false` for any negative coordinate, for any coordinate whose row-major index
`y * width + x` falls outside the backing vector, and in particular for every
`y ≥ height` (when `x ≥ 0` and the grid is well-formed).  A coordinate with
`x ≥ width` whose flattened index stays in range instead reads the
wrapped-around cell of a later row, so such off-grid neighbors are not always
treated as dead. -/
theorem golgrid_get_out_of_bounds :
    ∀ (g : GOLGrid ℚ) (x y : Int),
      (x < 0 ∨ y < 0 → g.get x y = false)
      ∧ (0 ≤ x → 0 ≤ y → g.gol.length ≤ y.toNat * g.width + x.toNat → g.get x y = false)
      ∧ (g.gol.length = g.width * g.height → 0 ≤ x → (g.height : Int) ≤ y →
          g.get x y = false) := by
  intro g x y
  refine ⟨fun h => by simp [GOLGrid.get, h], fun hx hy hlen => ?_, fun hwf hx hy => ?_⟩
  · have hcond : ¬(x < 0 ∨ y < 0) := by
      push_neg
      exact ⟨hx, hy⟩
    simp only [GOLGrid.get]
    rw [if_neg hcond]
    exact List.getD_eq_default _ _ hlen
  · have hy0 : (0 : Int) ≤ y := le_trans (Int.ofNat_nonneg g.height) hy
    have hyn : g.height ≤ y.toNat := by
      omega
    have hcond : ¬(x < 0 ∨ y < 0) := by
      push_neg
      exact ⟨hx, hy0⟩
    simp only [GOLGrid.get]
    rw [if_neg hcond]
    refine List.getD_eq_default _ _ ?_
    calc g.gol.length = g.width * g.height := hwf
      _ ≤ y.toNat * g.width := by
          rw [mul_comm]
          exact Nat.mul_le_mul hyn (Nat.le_refl _)
      _ ≤ y.toNat * g.width + x.toNat := Nat.le_add_right _ _

/-- C2 counterexample: on a 2×2 grid whose only live cell is `(0, 1)`, the
out-of-bounds lookup `get(2, 0)` (x = width) wraps to row-major index 2 and
returns `true`, not the dead default; consequently `neighbors(1, 0)` counts 2
instead of the 1 live in-grid neighbor. -/
theorem golgrid_get_wrap_ce :
    gridCE.width = 2 ∧ gridCE.get 2 0 = true ∧ gridCE.neighbors 1 0 = 2 := by
  refine ⟨rfl, by decide, by decide⟩

/-- Witness for `golgrid_get_out_of_bounds`: concrete off-grid lookups on the
2×2 grid — a negative x coordinate and a y coordinate beyond the height —
both return the dead default. -/
theorem golgrid_get_out_of_bounds_witness :
    gridCE.get (-1) 0 = false ∧ gridCE.get 0 5 = false :=
  ⟨(golgrid_get_out_of_bounds gridCE (-1) 0).1 (Or.inl (by decide)),
   (golgrid_get_out_of_bounds gridCE 0 5).2.2 (by decide) (by decide) (by decide)⟩

/-- C1 (amended): for the five variants with an explicit warning gate —
GrowLaser, SlamLaser, RotatableRect, RotatingRect and SpinningArc —
`collides(player)` is `false` whenever the lifecycle time is strictly below
`warning_time`, for every player and every behaviour of the external
geometric collision collaborators.  (`CenterProj::collides` carries no such
gate; see the counterexample.) -/
theorem warning_gate_collides :
    (∀ (rectify : ℚ × ℚ → ℚ × ℚ → ℚ → (ℚ × ℚ) × (ℚ × ℚ) × ℚ)
        (collideCR : ℚ × ℚ → ℚ × ℚ → ℚ → ℚ × ℚ → ℚ → Bool)
        (s : GrowLaser ℚ) (p : Player ℚ),
      s.current_time < s.warning_time → s.collides rectify collideCR p = false)
    ∧ (∀ (rectify : ℚ × ℚ → ℚ × ℚ → ℚ → (ℚ × ℚ) × (ℚ × ℚ) × ℚ)
        (collideCR : ℚ × ℚ → ℚ × ℚ → ℚ → ℚ × ℚ → ℚ → Bool)
        (s : SlamLaser ℚ) (p : Player ℚ),
      s.current_time < s.warning_time → s.collides rectify collideCR p = false)
    ∧ (∀ (collideCR : ℚ × ℚ → ℚ × ℚ → ℚ → ℚ × ℚ → ℚ → Bool)
        (s : RotatableRect ℚ) (p : Player ℚ),
      s.current_time < s.warning_time → s.collides collideCR p = false)
    ∧ (∀ (collideCR : ℚ × ℚ → ℚ × ℚ → ℚ → ℚ × ℚ → ℚ → Bool) (tau : ℚ)
        (s : RotatingRect ℚ) (p : Player ℚ),
      s.current_time < s.warning_time → s.collides collideCR tau p = false)
    ∧ (∀ (collideArc : ℚ × ℚ → ℚ → ℚ × ℚ → ℚ → ℚ → ℚ → ℚ → Bool) (tau : ℚ)
        (s : SpinningArc ℚ) (p : Player ℚ),
      s.time < s.warning_time → SpinningArc.collides collideArc tau s p = false) := by
  refine ⟨fun rectify collideCR s p h => ?_, fun rectify collideCR s p h => ?_,
    fun collideCR s p h => ?_, fun collideCR tau s p h => ?_,
    fun collideArc tau s p h => ?_⟩
  · simp [GrowLaser.collides, decide_eq_false (not_le.mpr h)]
  · simp [SlamLaser.collides, decide_eq_false (not_le.mpr h)]
  · simp [RotatableRect.collides, decide_eq_false (not_le.mpr h)]
  · simp [RotatingRect.collides, decide_eq_false (not_le.mpr h)]
  · simp [SpinningArc.collides, decide_eq_false (not_le.mpr h)]

/-- Witness for `warning_gate_collides`: concrete in-warning states for all
five gated variants report no collision even against adversarial external
collision collaborators that always answer `true`. -/
theorem warning_gate_collides_witness :
    (GrowLaser.new (0, 0) (1, 0) 5 2 4 (0, 0) : GrowLaser ℚ).collides
        (fun _ _ _ => ((0, 0), (0, 0), 0)) (fun _ _ _ _ _ => true)
        { pos := (0, 0), rad := 5, pps := 100, dash := 0, isecs := 0 } = false
    ∧ (SlamLaser.new (0, 0) (1, 0) 5 2 4 (1 / 10) (0, 0) 0 : SlamLaser ℚ).collides
        (fun _ _ _ => ((0, 0), (0, 0), 0)) (fun _ _ _ _ _ => true)
        { pos := (0, 0), rad := 5, pps := 100, dash := 0, isecs := 0 } = false
    ∧ ({ center := (0, 0), size := (1, 1), rot := 0, warning_time := 2, show_time := 4,
          current_time := 1, grow_time := 1 / 4 } : RotatableRect ℚ).collides
        (fun _ _ _ _ _ => true)
        { pos := (0, 0), rad := 5, pps := 100, dash := 0, isecs := 0 } = false
    ∧ ({ center := (0, 0), size := (1, 1), rot := 0, warning_time := 2, show_time := 4,
          current_time := 1, ease_time := 0, grow_time := 1 / 4, rpb := 1 / 4 } :
          RotatingRect ℚ).collides (fun _ _ _ _ _ => true) 6
        { pos := (0, 0), rad := 5, pps := 100, dash := 0, isecs := 0 } = false
    ∧ SpinningArc.collides (fun _ _ _ _ _ _ _ => true) 6
        ({ center := (0, 0), inner_rad := 1, outer_rad := 2, left_angle := 0,
           right_angle := 3, rpb := 1, warning_time := 2, show_time := 4, ease := 1,
           time := 1 } : SpinningArc ℚ)
        { pos := (0, 0), rad := 5, pps := 100, dash := 0, isecs := 0 } = false :=
  ⟨warning_gate_collides.1 _ _ _ _ (by norm_num [GrowLaser.new]),
   warning_gate_collides.2.1 _ _ _ _ (by norm_num [SlamLaser.new]),
   warning_gate_collides.2.2.1 _ _ _ (by norm_num),
   warning_gate_collides.2.2.2.1 _ _ _ _ (by norm_num),
   warning_gate_collides.2.2.2.2 _ _ _ _ (by norm_num)⟩

/-- C1 counterexample: `CenterProj::collides` has no warning gate.  The
default boss (warning_time 1) at lifecycle time 0 — strictly inside its
warning phase — reports a collision with a player standing on its tracked
position (external collaborators instantiated with noise 0, `sin 0 = 0`,
`cos 0 = 1`, screen center `(0,0)`, so the tracked position is `(0, 75)`). -/
theorem centerProj_collides_warning_ce :
    (CenterProj.default : CenterProj ℚ).time < (CenterProj.default : CenterProj ℚ).warning_time
    ∧ CenterProj.collides (fun _ _ => 0) (fun _ => 0) (fun _ => 1) (0, 0) (44 / 7)
        (CenterProj.default : CenterProj ℚ)
        { pos := (0, 75), rad := 5, pps := 100, dash := 0, isecs := 0 } = true := by
  constructor
  · norm_num [CenterProj.default]
  · norm_num [CenterProj.collides, CenterProj.default, CenterProj.trackpos,
      CenterProj.size, collide_cc]

/-- C5 (amended): for the time-threshold variants (GrowLaser, SlamLaser,
RotatableRect, RotatingRect, SpinningArc, Bomb, CenterProj), `should_kill` is
false at lifecycle time 0 whenever the configured total duration is positive
(non-negative for CenterProj's strict comparison), and after any update at a
lifecycle time at or beyond the total duration it is true — hence, the
stored clock being exactly the monotone lifecycle clock, it stays true on
every later update.  Pellet's positional condition is excluded: it can be
true at time 0 (see the counterexample). -/
theorem shouldKill_threshold_monotone :
    (∀ s : GrowLaser ℚ, s.current_time = 0 → 0 < s.warning_time + s.show_time →
      s.shouldKill = false)
    ∧ (∀ (s : GrowLaser ℚ) (a : UpdateAccumulator ℚ) (d t de e : ℚ),
      s.warning_time + s.show_time ≤ t → (s.update a d t de e).1.shouldKill = true)
    ∧ (∀ s : SlamLaser ℚ, s.current_time = 0 → 0 < s.warning_time + s.show_time →
      s.shouldKill = false)
    ∧ (∀ (s : SlamLaser ℚ) (a : UpdateAccumulator ℚ) (d t de e : ℚ),
      s.warning_time + s.show_time ≤ t → (s.update a d t de e).1.shouldKill = true)
    ∧ (∀ s : RotatableRect ℚ, s.current_time = 0 → 0 < s.show_time + s.warning_time →
      s.shouldKill = false)
    ∧ (∀ (s : RotatableRect ℚ) (a : UpdateAccumulator ℚ) (d t de e : ℚ),
      s.show_time + s.warning_time ≤ t → (s.update a d t de e).1.shouldKill = true)
    ∧ (∀ s : RotatingRect ℚ, s.current_time = 0 → 0 < s.show_time + s.warning_time →
      s.shouldKill = false)
    ∧ (∀ (s : RotatingRect ℚ) (a : UpdateAccumulator ℚ) (d t de e : ℚ),
      s.show_time + s.warning_time ≤ t → (s.update a d t de e).1.shouldKill = true)
    ∧ (∀ s : SpinningArc ℚ, s.time = 0 → 0 < s.warning_time + s.show_time →
      s.shouldKill = false)
    ∧ (∀ (s : SpinningArc ℚ) (a : UpdateAccumulator ℚ) (d t de e : ℚ),
      s.warning_time + s.show_time ≤ t → (s.update a d t de e).1.shouldKill = true)
    ∧ (∀ b : Bomb ℚ, b.time = 0 → 0 < b.life → b.shouldKill = false)
    ∧ (∀ (b : Bomb ℚ) (a : UpdateAccumulator ℚ) (d t de e : ℚ),
      b.life ≤ t → (b.update a d t de e).1.shouldKill = true)
    ∧ (∀ cp : CenterProj ℚ, cp.time = 0 → 0 ≤ cp.warning_time + cp.show_time →
      cp.shouldKill = false)
    ∧ (∀ cp : CenterProj ℚ, cp.warning_time + cp.show_time < cp.time →
      cp.shouldKill = true) := by
  refine ⟨fun s h0 hpos => ?_, fun s a d t de e h => ?_,
    fun s h0 hpos => ?_, fun s a d t de e h => ?_,
    fun s h0 hpos => ?_, fun s a d t de e h => ?_,
    fun s h0 hpos => ?_, fun s a d t de e h => ?_,
    fun s h0 hpos => ?_, fun s a d t de e h => ?_,
    fun b h0 hpos => ?_, fun b a d t de e h => ?_,
    fun cp h0 hnn => ?_, fun cp h => ?_⟩
  · rw [GrowLaser.shouldKill, h0]
    exact decide_eq_false (not_le.mpr hpos)
  · simp only [GrowLaser.update, GrowLaser.shouldKill]
    split
    all_goals simpa using h
  · rw [SlamLaser.shouldKill, h0]
    exact decide_eq_false (not_le.mpr hpos)
  · simp only [SlamLaser.update, SlamLaser.shouldKill]
    split
    all_goals simpa using h
  · rw [RotatableRect.shouldKill, h0]
    exact decide_eq_false (not_le.mpr hpos)
  · simpa [RotatableRect.update, RotatableRect.shouldKill] using h
  · rw [RotatingRect.shouldKill, h0]
    exact decide_eq_false (not_le.mpr hpos)
  · simpa [RotatingRect.update, RotatingRect.shouldKill] using h
  · rw [SpinningArc.shouldKill, h0]
    exact decide_eq_false (not_le.mpr hpos)
  · simpa [SpinningArc.update, SpinningArc.shouldKill] using h
  · rw [Bomb.shouldKill, h0]
    exact decide_eq_false (not_le.mpr hpos)
  · simpa [Bomb.update, Bomb.shouldKill] using h
  · rw [CenterProj.shouldKill, h0]
    exact decide_eq_false (not_lt.mpr hnn)
  · rw [CenterProj.shouldKill]
    exact decide_eq_true h

/-- Witness for `shouldKill_threshold_monotone`: a freshly constructed
GrowLaser (total duration 3) is not yet dead, the same laser updated to
lifecycle time 4 is dead, and the default CenterProj at time 0 is not
dead. -/
theorem shouldKill_threshold_monotone_witness :
    (GrowLaser.new (0, 0) (1, 0) 5 1 2 (0, 0) : GrowLaser ℚ).shouldKill = false
    ∧ ((GrowLaser.new (0, 0) (1, 0) 5 1 2 (0, 0) : GrowLaser ℚ).update
        ⟨[], [], [], 0⟩ 4 4 4 4).1.shouldKill = true
    ∧ (CenterProj.default : CenterProj ℚ).shouldKill = false :=
  ⟨shouldKill_threshold_monotone.1 _ rfl (by norm_num [GrowLaser.new]),
   shouldKill_threshold_monotone.2.1 _ _ _ _ _ _ (by norm_num [GrowLaser.new]),
   shouldKill_threshold_monotone.2.2.2.2.2.2.2.2.2.2.2.2.1 _ rfl
     (by norm_num [CenterProj.default])⟩

/-- C5 counterexample: a `Pellet` constructed at `(2000, 0)` on a 1280×720
screen — i.e. at lifecycle time 0, before any update — already has
`should_kill() = true`, so `should_kill` is not false at time 0 for every
variant. -/
theorem pellet_shouldKill_at_spawn_ce :
    Pellet.shouldKill (1280 : ℚ) 720 (Pellet.new (2000, 0) (0, 0) 5) = true := by
  norm_num [Pellet.shouldKill, Pellet.new, Rect.containsPoint]

/-- An element of a stable insertion is either the inserted event or one of
the original ones. -/
theorem mem_insertEvent {K : Type} [LinearOrderedField K]
    (e x : K × CenterEvent K) (l : List (K × CenterEvent K)) :
    x ∈ insertEvent e l → x = e ∨ x ∈ l := by
  induction l with
  | nil => simp [insertEvent]
  | cons f rest ih =>
    simp only [insertEvent]
    split
    · intro hx
      rcases List.mem_cons.mp hx with h | h
      · exact Or.inr (List.mem_cons.mpr (Or.inl h))
      · rcases ih h with h | h
        · exact Or.inl h
        · exact Or.inr (List.mem_cons.mpr (Or.inr h))
    · intro hx
      rcases List.mem_cons.mp hx with h | h
      · exact Or.inl h
      · exact Or.inr h

/-- Stable insertion preserves sortedness by offset. -/
theorem pairwise_insertEvent {K : Type} [LinearOrderedField K]
    (e : K × CenterEvent K) (l : List (K × CenterEvent K))
    (h : l.Pairwise (fun a b => a.1 ≤ b.1)) :
    (insertEvent e l).Pairwise (fun a b => a.1 ≤ b.1) := by
  induction l with
  | nil => simp [insertEvent]
  | cons f rest ih =>
    rcases List.pairwise_cons.mp h with ⟨hf, hrest⟩
    simp only [insertEvent]
    split
    · refine List.pairwise_cons.mpr ⟨?_, ih hrest⟩
      intro x hx
      rcases mem_insertEvent e x rest hx with rfl | hx
      · assumption
      · exact hf x hx
    · rename_i hfe
      refine List.pairwise_cons.mpr ⟨?_, h⟩
      intro x hx
      rcases List.mem_cons.mp hx with rfl | hx
      · exact le_of_not_le hfe
      · exact le_trans (le_of_not_le hfe) (hf x hx)

/-- The insertion sort of the event queue is sorted by offset. -/
theorem pairwise_sortEvents {K : Type} [LinearOrderedField K]
    (l : List (K × CenterEvent K)) :
    (CenterProj.sortEvents l).Pairwise (fun a b => a.1 ≤ b.1) := by
  induction l with
  | nil => simp [CenterProj.sortEvents]
  | cons e rest ih => exact pairwise_insertEvent e _ ih

/-- The event loop of `CenterProj::update` fires exactly the longest due
prefix of the queue, in order, and keeps the rest. -/
theorem fireEvents_takeWhile {K : Type} [LinearOrderedField K]
    (t : K) (l : List (K × CenterEvent K)) :
    CenterProj.fireEvents t l
      = (l.takeWhile (fun e => decide (e.1 ≤ t)), l.dropWhile (fun e => decide (e.1 ≤ t))) := by
  induction l with
  | nil => simp [CenterProj.fireEvents]
  | cons e rest ih =>
    by_cases h : e.1 ≤ t
    · simp [CenterProj.fireEvents, List.takeWhile_cons, List.dropWhile_cons, h, ih]
    · simp [CenterProj.fireEvents, List.takeWhile_cons, List.dropWhile_cons, h]

/-- C8: after `CenterProj::sort` the event queue is in non-decreasing offset
order; the update loop consumes exactly the due prefix in queue order (so
each event fires exactly once, when `lifecycle_time - warning_time` first
reaches its offset), and the fired and remaining events partition the queue.
On the concrete out-of-order queue `[(1, Pulse), (0.5, Lasers 4 0)]`, sorting
yields `[(0.5, Lasers), (1, Pulse)]` and the Lasers event fires before
Pulse. -/
theorem centerProj_event_ordering :
    (∀ cp : CenterProj ℚ, (cp.sort.events.map Prod.fst).Sorted (fun a b => a ≤ b))
    ∧ (∀ (t : ℚ) (l : List (ℚ × CenterEvent ℚ)),
        (CenterProj.fireEvents t l).1 ++ (CenterProj.fireEvents t l).2 = l
        ∧ (CenterProj.fireEvents t l).1 = l.takeWhile (fun e => decide (e.1 ≤ t)))
    ∧ ({ CenterProj.default with
          events := [(1, .Pulse), (1 / 2, .Lasers 4 0)] } : CenterProj ℚ).sort.events
        = [(1 / 2, .Lasers 4 0), (1, .Pulse)]
    ∧ (CenterProj.fireEvents (1 : ℚ)
        (({ CenterProj.default with
            events := [(1, .Pulse), (1 / 2, .Lasers 4 0)] } : CenterProj ℚ).sort.events)).1
        = [(1 / 2, .Lasers 4 0), (1, .Pulse)] := by
  refine ⟨fun cp => ?_, fun t l => ⟨?_, ?_⟩, ?_, ?_⟩
  · rw [List.Sorted, List.pairwise_map]
    exact pairwise_sortEvents cp.events
  · rw [fireEvents_takeWhile]
    exact List.takeWhile_append_dropWhile _ _
  · rw [fireEvents_takeWhile]
  · norm_num [CenterProj.sort, CenterProj.sortEvents, insertEvent]
  · norm_num [CenterProj.sort, CenterProj.sortEvents, insertEvent,
      CenterProj.fireEvents]

/-- Running any obstacle wrapped in the identity-eased decorator over the
game-loop tick sequence starting at accumulated time `t0` (with the
decorator's `prev` equal to `t0`) is the run of the bare obstacle: the
decorator state tracks the accumulated time and hands the inner obstacle
exactly the lifecycle pair as its animation pair. -/
theorem runObs_ease_id {σ δ : Type} (O : Obs ℚ σ δ) (s : σ)
    (acc : UpdateAccumulator ℚ) (t0 : ℚ) (ds : List ℚ) :
    runObs (Ease.obs O) { ease := fun t => t, proj := s, prev := t0 } acc (mkTicks t0 ds)
      = ({ ease := fun t => t, proj := (runUpd O.update s acc (mkTicks t0 ds)).1,
            prev := t0 + ds.sum },
          (runUpd O.update s acc (mkTicks t0 ds)).2) := by
  induction ds generalizing s acc t0 with
  | nil => simp [runObs, runUpd, mkTicks]
  | cons d ds ih =>
    simp only [runObs, mkTicks, runUpd, Ease.obs, Ease.update, List.sum_cons]
    rw [add_sub_cancel_left]
    rw [show t0 + (d + ds.sum) = t0 + d + ds.sum from (add_assoc t0 d ds.sum).symm]
    exact ih _ _ _

/-- C4: wrapping any obstacle in an `Ease` decorator with the identity easing
function is a true no-op: over every game-loop tick sequence (times the
running sums of the deltas, `dease = dtime`, `ease = time`), after every
prefix of ticks the decorated and undecorated obstacle have identical `draw`
output, identical `collides` output and identical accumulator effects. -/
theorem ease_identity_noop :
    ∀ (σ δ : Type) (O : Obs ℚ σ δ) (s : σ) (acc : UpdateAccumulator ℚ) (ds : List ℚ)
      (k : ℕ) (color : Color ℚ) (offset : ℚ × ℚ) (p : Player ℚ),
      (Ease.obs O).draw
          (runObs (Ease.obs O) (Ease.anon s (fun t => t)) acc (mkTicks 0 (ds.take k))).1
          color offset
        = O.draw (runObs O s acc (mkTicks 0 (ds.take k))).1 color offset
      ∧ (Ease.obs O).collides
          (runObs (Ease.obs O) (Ease.anon s (fun t => t)) acc (mkTicks 0 (ds.take k))).1 p
        = O.collides (runObs O s acc (mkTicks 0 (ds.take k))).1 p
      ∧ (runObs (Ease.obs O) (Ease.anon s (fun t => t)) acc (mkTicks 0 (ds.take k))).2
        = (runObs O s acc (mkTicks 0 (ds.take k))).2 := by
  intro σ δ O s acc ds k color offset p
  have h := runObs_ease_id O s acc 0 (ds.take k)
  rw [Ease.anon] at *
  refine ⟨?_, ?_, ?_⟩
  · rw [h]
    simp [Ease.obs, runObs]
  · rw [h]
    simp [Ease.obs, runObs]
  · rw [h]
    simp [runObs]

/-- A per-tick update that never reads its `(dease, ease)` arguments yields
runs that depend only on the `(dtime, time)` projections of the tick
sequence. -/
theorem runUpd_ease_independent {σ : Type}
    (upd : σ → UpdateAccumulator ℚ → ℚ → ℚ → ℚ → ℚ → σ × UpdateAccumulator ℚ)
    (hind : ∀ s a d t de e de' e', upd s a d t de e = upd s a d t de' e')
    (s : σ) (acc : UpdateAccumulator ℚ) (ticks ticks' : List (ℚ × ℚ × ℚ × ℚ))
    (hsame : ticks.map timePart = ticks'.map timePart) :
    runUpd upd s acc ticks = runUpd upd s acc ticks' := by
  induction ticks generalizing ticks' s acc with
  | nil =>
    rw [List.map_eq_nil_iff.mp hsame.symm]
  | cons q rest ih =>
    cases ticks' with
    | nil => exact absurd hsame (by simp)
    | cons q' rest' =>
      simp only [List.map_cons, List.cons.injEq, timePart, Prod.mk.injEq] at hsame
      obtain ⟨⟨h1, h2⟩, hrest⟩ := hsame
      simp only [runUpd]
      rw [h1, h2, hind s acc q'.1 q'.2.1 q.2.2.1 q.2.2.2 q'.2.2.1 q'.2.2.2]
      exact ih _ _ _ hrest

/-- If an obstacle's update never reads `(dease, ease)`, wrapping it in an
`Ease` decorator with an arbitrary easing function leaves its tick-by-tick
state and accumulator effects exactly those of the bare run. -/
theorem runObs_ease_wrap_independent {σ δ : Type} (O : Obs ℚ σ δ)
    (hind : ∀ s a d t de e de' e', O.update s a d t de e = O.update s a d t de' e')
    (f : ℚ → ℚ) (s : σ) (prev : ℚ) (acc : UpdateAccumulator ℚ)
    (ticks : List (ℚ × ℚ × ℚ × ℚ)) :
    ((runObs (Ease.obs O) { ease := f, proj := s, prev := prev } acc ticks).1.proj,
        (runObs (Ease.obs O) { ease := f, proj := s, prev := prev } acc ticks).2)
      = runUpd O.update s acc ticks := by
  induction ticks generalizing s prev acc with
  | nil => simp [runObs, runUpd]
  | cons q rest ih =>
    simp only [runObs, runUpd, Ease.obs, Ease.update]
    rw [hind s acc q.1 q.2.1 (f q.2.2.2 - prev) (f q.2.2.2) q.2.2.1 q.2.2.2]
    exact ih _ _ _

/-- C10: the update methods of Bomb, GrowLaser, SlamLaser and RotatableRect
never read their `dease`/`ease` arguments; runs over tick sequences agreeing
on `(dtime, time)` but differing arbitrarily in `(dease, ease)` produce
identical states and accumulator effects every tick, and wrapping any of
these variants in an `Ease` decorator (arbitrary easing function) leaves the
inner state and effects unchanged. -/
theorem update_ignores_ease_args :
    (∀ (s : Bomb ℚ) (a : UpdateAccumulator ℚ) (d t de e de' e' : ℚ),
      s.update a d t de e = s.update a d t de' e')
    ∧ (∀ (s : GrowLaser ℚ) (a : UpdateAccumulator ℚ) (d t de e de' e' : ℚ),
      s.update a d t de e = s.update a d t de' e')
    ∧ (∀ (s : SlamLaser ℚ) (a : UpdateAccumulator ℚ) (d t de e de' e' : ℚ),
      s.update a d t de e = s.update a d t de' e')
    ∧ (∀ (s : RotatableRect ℚ) (a : UpdateAccumulator ℚ) (d t de e de' e' : ℚ),
      s.update a d t de e = s.update a d t de' e')
    ∧ (∀ (s : Bomb ℚ) (acc : UpdateAccumulator ℚ) (ticks ticks' : List (ℚ × ℚ × ℚ × ℚ)),
      ticks.map timePart = ticks'.map timePart →
        runUpd Bomb.update s acc ticks = runUpd Bomb.update s acc ticks')
    ∧ (∀ (s : GrowLaser ℚ) (acc : UpdateAccumulator ℚ) (ticks ticks' : List (ℚ × ℚ × ℚ × ℚ)),
      ticks.map timePart = ticks'.map timePart →
        runUpd GrowLaser.update s acc ticks = runUpd GrowLaser.update s acc ticks')
    ∧ (∀ (s : SlamLaser ℚ) (acc : UpdateAccumulator ℚ) (ticks ticks' : List (ℚ × ℚ × ℚ × ℚ)),
      ticks.map timePart = ticks'.map timePart →
        runUpd SlamLaser.update s acc ticks = runUpd SlamLaser.update s acc ticks')
    ∧ (∀ (s : RotatableRect ℚ) (acc : UpdateAccumulator ℚ)
        (ticks ticks' : List (ℚ × ℚ × ℚ × ℚ)),
      ticks.map timePart = ticks'.map timePart →
        runUpd RotatableRect.update s acc ticks = runUpd RotatableRect.update s acc ticks')
    ∧ (∀ (δ : Type) (O : Obs ℚ (GrowLaser ℚ) δ), O.update = GrowLaser.update →
      ∀ (f : ℚ → ℚ) (s : GrowLaser ℚ) (prev : ℚ) (acc : UpdateAccumulator ℚ)
        (ticks : List (ℚ × ℚ × ℚ × ℚ)),
        ((runObs (Ease.obs O) { ease := f, proj := s, prev := prev } acc ticks).1.proj,
            (runObs (Ease.obs O) { ease := f, proj := s, prev := prev } acc ticks).2)
          = runUpd GrowLaser.update s acc ticks)
    ∧ (∀ (δ : Type) (O : Obs ℚ (Bomb ℚ) δ), O.update = Bomb.update →
      ∀ (f : ℚ → ℚ) (s : Bomb ℚ) (prev : ℚ) (acc : UpdateAccumulator ℚ)
        (ticks : List (ℚ × ℚ × ℚ × ℚ)),
        ((runObs (Ease.obs O) { ease := f, proj := s, prev := prev } acc ticks).1.proj,
            (runObs (Ease.obs O) { ease := f, proj := s, prev := prev } acc ticks).2)
          = runUpd Bomb.update s acc ticks) := by
  refine ⟨fun s a d t de e de' e' => rfl, fun s a d t de e de' e' => rfl,
    fun s a d t de e de' e' => rfl, fun s a d t de e de' e' => rfl,
    fun s acc ticks ticks' h =>
      runUpd_ease_independent Bomb.update (fun s a d t de e de' e' => rfl)
        s acc ticks ticks' h,
    fun s acc ticks ticks' h =>
      runUpd_ease_independent GrowLaser.update (fun s a d t de e de' e' => rfl)
        s acc ticks ticks' h,
    fun s acc ticks ticks' h =>
      runUpd_ease_independent SlamLaser.update (fun s a d t de e de' e' => rfl)
        s acc ticks ticks' h,
    fun s acc ticks ticks' h =>
      runUpd_ease_independent RotatableRect.update (fun s a d t de e de' e' => rfl)
        s acc ticks ticks' h,
    fun δ O hO f s prev acc ticks => ?_, fun δ O hO f s prev acc ticks => ?_⟩
  · have := runObs_ease_wrap_independent O
      (fun s a d t de e de' e' => by rw [hO]; exact rfl) f s prev acc ticks
    rw [this, hO]
  · have := runObs_ease_wrap_independent O
      (fun s a d t de e de' e' => by rw [hO]; exact rfl) f s prev acc ticks
    rw [this, hO]

/-- Witness for `update_ignores_ease_args`: a concrete GrowLaser run over two
ticks whose `(dease, ease)` entries differ wildly from a second run, and a
concrete quadratically-eased Bomb whose inner run matches the bare run. -/
theorem update_ignores_ease_args_witness :
    runUpd (GrowLaser.update (K := ℚ)) (GrowLaser.new (0, 0) (1, 0) 5 1 2 (0, 0))
        ⟨[], [], [], 0⟩ [(1, 1, 5, 7), (1, 2, 11, 13)]
      = runUpd GrowLaser.update (GrowLaser.new (0, 0) (1, 0) 5 1 2 (0, 0))
        ⟨[], [], [], 0⟩ [(1, 1, 9, 3), (1, 2, 0, 100)]
    ∧ ((runObs (Ease.obs (⟨Bomb.update, fun _ _ _ => (0 : ℚ), fun _ _ => false,
            fun _ => false, fun s a => (s, a)⟩ : Obs ℚ (Bomb ℚ) ℚ))
          { ease := fun t => t * t,
            proj := Bomb.new (0, 0) (1, 1) 4 6 100 5 Bomb.pellet_spawner, prev := 0 }
          ⟨[], [], [], 0⟩ [(1, 1, 1, 1)]).1.proj,
        (runObs (Ease.obs (⟨Bomb.update, fun _ _ _ => (0 : ℚ), fun _ _ => false,
            fun _ => false, fun s a => (s, a)⟩ : Obs ℚ (Bomb ℚ) ℚ))
          { ease := fun t => t * t,
            proj := Bomb.new (0, 0) (1, 1) 4 6 100 5 Bomb.pellet_spawner, prev := 0 }
          ⟨[], [], [], 0⟩ [(1, 1, 1, 1)]).2)
      = runUpd Bomb.update (Bomb.new (0, 0) (1, 1) 4 6 100 5 Bomb.pellet_spawner)
          ⟨[], [], [], 0⟩ [(1, 1, 1, 1)] :=
  ⟨update_ignores_ease_args.2.2.2.2.2.1 _ _ _ _ rfl,
   update_ignores_ease_args.2.2.2.2.2.2.2.2.2 ℚ _ rfl (fun t => t * t) _ 0 _ _⟩

/-- Folding `Bomb::pellet_spawner` invocations over any index list appends
one pellet `Obst` per index (timestamped with the accumulator's captured
time, which the spawner never changes). -/
theorem foldl_pellet_spawner {K : Type} [LinearOrderedField K]
    (sinF cosF : K → K) (tau : K) (b : Bomb K) (l : List ℕ)
    (acc : UpdateAccumulator K) :
    ((l.foldl (fun a (i : ℕ) =>
        Bomb.pellet_spawner a ((((ModifyArgs.new a.time).withPos (b.pos (0, 0))).withVel
          (sinF ((i : K) / (b.pellets : K) * tau) * b.pellet_vel,
            cosF ((i : K) / (b.pellets : K) * tau) * b.pellet_vel)).withRad b.pellet_rad))
        acc).spawned
      = acc.spawned ++ l.map (fun (i : ℕ) =>
          Obst.new (AnyObstacle.pellet
            { pos := b.pos (0, 0)
              vel := (sinF ((i : K) / (b.pellets : K) * tau) * b.pellet_vel,
                      cosF ((i : K) / (b.pellets : K) * tau) * b.pellet_vel)
              rad := b.pellet_rad }) acc.time))
    ∧ ((l.foldl (fun a (i : ℕ) =>
        Bomb.pellet_spawner a ((((ModifyArgs.new a.time).withPos (b.pos (0, 0))).withVel
          (sinF ((i : K) / (b.pellets : K) * tau) * b.pellet_vel,
            cosF ((i : K) / (b.pellets : K) * tau) * b.pellet_vel)).withRad b.pellet_rad))
        acc).time = acc.time) := by
  induction l generalizing acc with
  | nil => exact ⟨by simp, rfl⟩
  | cons i l ih =>
    simp only [List.foldl_cons, List.map_cons]
    rw [(ih _).1, (ih _).2]
    constructor
    · simp [Bomb.pellet_spawner, UpdateAccumulator.obstacle, ModifyArgs.new,
        ModifyArgs.withPos, ModifyArgs.withVel, ModifyArgs.withRad, Obst.new]
    · rfl

/-- C6: a Bomb constructed with `pellets = N > 0` and the standard
`pellet_spawner` spawns, on `kill`, exactly `N` Pellet obstacles through its
owned spawner — the `i`-th launched from the bomb's interpolated position
with velocity `(sin θ_i, cos θ_i) * pellet_vel` at angle
`θ_i = i / N * 2π`, radius `pellet_rad` — so consecutive launch angles are
spaced exactly `2π/N` radians apart and every pellet's speed is exactly the
configured `pellet_vel`. -/
theorem bomb_kill_pellet_ring :
    (∀ (start target : ℝ × ℝ) (life v r : ℝ) (N : ℕ)
        (sp : UpdateAccumulator ℝ → ModifyArgs ℝ → UpdateAccumulator ℝ),
      (Bomb.new start target life N v r sp).pellets = N
      ∧ (Bomb.new start target life N v r sp).pellet_vel = v
      ∧ (Bomb.new start target life N v r sp).pellet_rad = r
      ∧ (Bomb.new start target life N v r sp).spawner = sp)
    ∧ (∀ (b : Bomb ℝ) (acc : UpdateAccumulator ℝ),
      b.spawner = Bomb.pellet_spawner → 0 < b.pellets → 0 ≤ b.pellet_vel →
      (b.kill Real.sin Real.cos (2 * Real.pi) acc).spawned
        = acc.spawned ++ (List.range b.pellets).map (fun (i : ℕ) =>
            Obst.new (AnyObstacle.pellet
              { pos := b.pos (0, 0)
                vel := (Real.sin ((i : ℝ) / (b.pellets : ℝ) * (2 * Real.pi)) * b.pellet_vel,
                        Real.cos ((i : ℝ) / (b.pellets : ℝ) * (2 * Real.pi)) * b.pellet_vel)
                rad := b.pellet_rad }) acc.time)
      ∧ (b.kill Real.sin Real.cos (2 * Real.pi) acc).spawned.length
          = acc.spawned.length + b.pellets
      ∧ (∀ i : ℕ,
          ((i + 1 : ℕ) : ℝ) / (b.pellets : ℝ) * (2 * Real.pi)
            - ((i : ℕ) : ℝ) / (b.pellets : ℝ) * (2 * Real.pi)
          = 2 * Real.pi / (b.pellets : ℝ))
      ∧ (∀ i : ℕ,
          Real.sqrt ((Real.sin ((i : ℝ) / (b.pellets : ℝ) * (2 * Real.pi)) * b.pellet_vel) ^ 2
            + (Real.cos ((i : ℝ) / (b.pellets : ℝ) * (2 * Real.pi)) * b.pellet_vel) ^ 2)
          = b.pellet_vel)) := by
  refine ⟨fun start target life v r N sp => ⟨rfl, rfl, rfl, rfl⟩,
    fun b acc hsp hN hv => ?_⟩
  have hN0 : (b.pellets : ℝ) ≠ 0 := Nat.cast_ne_zero.mpr hN.ne'
  have hspawned : (b.kill Real.sin Real.cos (2 * Real.pi) acc).spawned
      = acc.spawned ++ (List.range b.pellets).map (fun (i : ℕ) =>
          Obst.new (AnyObstacle.pellet
            { pos := b.pos (0, 0)
              vel := (Real.sin ((i : ℝ) / (b.pellets : ℝ) * (2 * Real.pi)) * b.pellet_vel,
                      Real.cos ((i : ℝ) / (b.pellets : ℝ) * (2 * Real.pi)) * b.pellet_vel)
              rad := b.pellet_rad }) acc.time) := by
    unfold Bomb.kill
    simp only [hsp]
    exact (foldl_pellet_spawner Real.sin Real.cos (2 * Real.pi) b
      (List.range b.pellets) acc).1
  refine ⟨hspawned, ?_, fun i => ?_, fun i => ?_⟩
  · rw [hspawned]
    simp [List.length_append, List.length_map, List.length_range]
  · push_cast
    field_simp
    ring
  · have hpyth : (Real.sin ((i : ℝ) / (b.pellets : ℝ) * (2 * Real.pi)) * b.pellet_vel) ^ 2
        + (Real.cos ((i : ℝ) / (b.pellets : ℝ) * (2 * Real.pi)) * b.pellet_vel) ^ 2
        = b.pellet_vel ^ 2 := by
      linear_combination b.pellet_vel ^ 2
        * Real.sin_sq_add_cos_sq ((i : ℝ) / (b.pellets : ℝ) * (2 * Real.pi))
    rw [hpyth, Real.sqrt_sq hv]

/-- Witness for `bomb_kill_pellet_ring`: killing a concrete bomb configured
with six pellets over an empty accumulator spawns exactly six obstacles. -/
theorem bomb_kill_pellet_ring_witness :
    ((Bomb.new (0, 0) (3, 4) 4 6 100 5 Bomb.pellet_spawner : Bomb ℝ).kill
        Real.sin Real.cos (2 * Real.pi) ⟨[], [], [], 0⟩).spawned.length = 6 := by
  simpa using (bomb_kill_pellet_ring.2
    (Bomb.new (0, 0) (3, 4) 4 6 100 5 Bomb.pellet_spawner) ⟨[], [], [], 0⟩
    rfl (by norm_num [Bomb.new]) (by norm_num [Bomb.new])).2.1

end Epar
